import Mathlib

/-!
Shallow embedding of the core of the `fastapi_basic_crud` book-tracking
service: the credential hasher and token service (external collaborators,
modelled from the spec), the identity resolver (`get_current_user`), the
user and book CRUD layer (`core/crud/user.py`, `core/crud/book.py`) and
the route handlers that compose them (`core/routes/users.py`,
`core/routes/books.py`).

The persistent store is modelled as explicit state: a `DB` record holding
the `users` and `books` tables as lists in insertion order, together with
the next auto-increment primary keys.  Fallible handlers return
`Except HTTPException`; handlers that mutate the store also return the
resulting `DB`.
-/

/-- Reading status of a book: the SQL enum `book_status` with values
`read` and `to_read` (`core/models/book.py`). -/
inductive BookStatus where
  | read
  | to_read
deriving DecidableEq, Repr

/-- A row of the `books` table (`core/models/book.py`): integer primary
key `id`, `title`, `author_id` foreign key to `users.id`, and `status`. -/
structure BookRow where
  id : Nat
  title : String
  status : BookStatus
  author_id : Nat
deriving DecidableEq, Repr

/-- Modelled from the spec: the `User` ORM model (`core/models/user.py`,
not present under `src/`); spec §3 gives its fields as
{id (system-assigned), username (unique), email (unique), password hash},
and `core/crud/user.py` reads `username`, `email`, `hashed_password`. -/
structure UserRow where
  id : Nat
  username : String
  email : String
  hashed_password : String
deriving DecidableEq, Repr

/-- The persistent store: both tables in insertion order plus the next
auto-increment primary key for each. -/
structure DB where
  users : List UserRow
  books : List BookRow
  nextUserId : Nat
  nextBookId : Nat
deriving DecidableEq, Repr

/-- `BookBase` / `BookCreate` (`core/schemas/common.py`,
`core/schemas/book.py`): request body for book creation, carrying only
`title` and `status` — there is no client-supplied `author_id` field. -/
structure BookCreate where
  title : String
  status : BookStatus
deriving DecidableEq, Repr

/-- `BookUpdate` (`core/schemas/book.py`): `title` is `Optional[str]`,
`status` is required. -/
structure BookUpdate where
  title : Option String
  status : BookStatus
deriving DecidableEq, Repr

/-- Modelled from the spec: the `UserCreate` request schema
(`core/schemas/user.py`, not present under `src/`); spec §6 gives the
registration body as {username, email, password}. -/
structure UserCreate where
  username : String
  email : String
  password : String
deriving DecidableEq, Repr

/-- Modelled from the spec: the `User` response schema
(`core/schemas/user.py`, not present under `src/`); spec §6 says the
registration response is the User without the password, and
`core/schemas/common.py` gives `UserBase` = {username, email}.  This
structure has exactly the fields `id`, `username`, `email`: no password
and no hash. -/
structure UserPublic where
  id : Nat
  username : String
  email : String
deriving DecidableEq, Repr

/-- Serialization of a `users` row through the `User` response schema:
drops `hashed_password` (which has no corresponding schema field). -/
def UserRow.toPublic (u : UserRow) : UserPublic :=
  { id := u.id, username := u.username, email := u.email }

/-- `fastapi.HTTPException`: status code, detail message, extra headers. -/
structure HTTPException where
  status_code : Nat
  detail : String
  headers : List (String × String) := []
deriving DecidableEq, Repr

/-! ## Credential hasher

`core/routes/users.py` delegates hashing to
`CryptContext(schemes=["bcrypt"])` from the `passlib` library, which is
not part of this repository.  Modelled from the spec (§4.1): a salted
one-way transform — the salt is drawn fresh per call (modelled as an
explicit `salt` argument), is recoverable from the hash string, and
`verify` parses the hash string, returning `false` on anything
malformed.  The concrete hash-string format below
(`$2b$<salt>$<digest>`) follows bcrypt's modular-crypt shape. -/

/-- Salt rendering inside a hash string: a nonempty run of digit
characters (never containing the `$` separator). -/
def saltChars (salt : Nat) : List Char :=
  List.replicate (salt + 1) '1'

/-- Modelled from the spec: `pwd_context.hash` (passlib, not in `src/`)
with the per-call random salt made explicit.  Produces
`$2b$<salt>$<digest>`. -/
def hashChars (p : List Char) (salt : Nat) : List Char :=
  '$' :: '2' :: 'b' :: '$' :: (saltChars salt ++ '$' :: p)

/-- Parse a hash string into its salt and digest parts; `none` on any
string not of the form `$2b$<nonempty salt>$<digest>`. -/
def parseHash (h : List Char) : Option (List Char × List Char) :=
  match h with
  | '$' :: '2' :: 'b' :: '$' :: rest =>
    let salt := rest.takeWhile (fun c => c != '$')
    match rest.dropWhile (fun c => c != '$') with
    | '$' :: digest => if salt.isEmpty then none else some (salt, digest)
    | _ => none
  | _ => none

/-- Modelled from the spec: `pwd_context.verify` (passlib, not in
`src/`): parses the hash string and checks the password against the
digest; total, returning `false` on a malformed hash string. -/
def verifyChars (p : List Char) (h : List Char) : Bool :=
  match parseHash h with
  | some (_, digest) => digest == p
  | none => false

/-- `get_password_hash` (`core/routes/users.py` lines 32–42), with the
salt passed explicitly. -/
def get_password_hash (password : String) (salt : Nat) : String :=
  ⟨hashChars password.data salt⟩

/-- `verify_password` (`core/routes/users.py` lines 18–29). -/
def verify_password (plain_password : String) (hashed_password : String) : Bool :=
  verifyChars plain_password.data hashed_password.data

/-- A string is a structurally well-formed hash when the parser accepts
it. -/
def isWellFormedHash (h : String) : Bool :=
  (parseHash h.data).isSome

/-! ## Token service

`core/routes/users.py` delegates token encoding/decoding to
`jose.jwt.encode`/`jose.jwt.decode` (the `python-jose` library, not part
of this repository).  Modelled from the spec (§4.2): a token carries a
claims payload and a signature over that payload under a symmetric
secret; decoding validates the signature and fails on an invalid
signature or a structurally malformed token. -/

/-- Error raised by the JWT library on a malformed token or an invalid
signature (`jose.JWTError`). -/
inductive JWTError where
  | invalid
deriving DecidableEq, Repr

/-- A bearer token: either structurally well formed — a claims payload
with a signature — or some arbitrary malformed string. -/
inductive Token where
  | signed (payload : List (String × String)) (sig : Nat)
  | malformed (raw : String)
deriving DecidableEq, Repr

/-- A concrete string digest, used as a building block of the modelled
MAC. -/
def strHash (s : String) : Nat :=
  s.data.foldl (fun a c => a * 131 + c.toNat + 1) 7

/-- Modelled from the spec: the HS256 signature over a claims payload
under the symmetric secret, abstracted to a concrete keyed digest. -/
def mac (secret : String) (payload : List (String × String)) : Nat :=
  payload.foldl (fun a kv => a * 1000003 + strHash kv.1 * 31 + strHash kv.2)
    (strHash secret)

/-- Modelled from the spec: `jwt.decode` (python-jose, not in `src/`):
validates the signature with the same secret and returns the payload;
fails with `JWTError` if the token is malformed or the signature does
not match. -/
def jwtDecode (secret : String) (t : Token) : Except JWTError (List (String × String)) :=
  match t with
  | .malformed _ => .error .invalid
  | .signed payload sig =>
    if sig = mac secret payload then .ok payload else .error .invalid

/-- `create_access_token` (`core/routes/users.py` lines 45–56):
`jwt.encode(data, SECRET_KEY, ALGORITHM)` — signs the claims payload
with the configured secret. -/
def create_access_token (secret : String) (data : List (String × String)) : Token :=
  .signed data (mac secret data)

/-! ## User CRUD (`core/crud/user.py`) -/

/-- A storage-level UNIQUE constraint violation; per spec §7 it is not
caught anywhere (fatal). -/
inductive StorageError where
  | uniqueViolation
deriving DecidableEq, Repr

namespace Crud

/-- `get_user_by_username` (`core/crud/user.py` lines 6–17):
`query(User).filter(User.username == username).first()`. -/
def get_user_by_username (db : DB) (username : String) : Option UserRow :=
  db.users.find? (fun u => u.username == username)

/-- `get_user_by_email` (`core/crud/user.py` lines 20–31). -/
def get_user_by_email (db : DB) (email : String) : Option UserRow :=
  db.users.find? (fun u => u.email == email)

/-- `create_user` (`core/crud/user.py` lines 34–52): inserts a row with
a system-assigned id.  The UNIQUE constraints on `username` and `email`
(spec §6 persisted schema) surface as a `StorageError` on violation,
matching the commit raising at the storage layer. -/
def create_user (db : DB) (user : UserCreate) (hashed_password : String) :
    Except StorageError (UserRow × DB) :=
  if db.users.any (fun u => u.username == user.username || u.email == user.email) then
    .error .uniqueViolation
  else
    let row : UserRow :=
      { id := db.nextUserId, username := user.username, email := user.email,
        hashed_password := hashed_password }
    .ok (row, { db with users := db.users ++ [row], nextUserId := db.nextUserId + 1 })

/-! ## Book CRUD (`core/crud/book.py`) -/

/-- The ownership filter of `core/crud/book.py` lines 59 and 75:
`Book.id == book_id, Book.author_id == user_id`. -/
def ownedPred (book_id user_id : Nat) (b : BookRow) : Bool :=
  b.id == book_id && b.author_id == user_id

/-- `create_book` (`core/crud/book.py` lines 6–22):
`Book(**book.dict(), author_id=user_id)` — the row is built from the
request body's `title` and `status` plus the caller-supplied `user_id`;
the id is system-assigned on commit. -/
def create_book (db : DB) (book : BookCreate) (user_id : Nat) : BookRow × DB :=
  let row : BookRow :=
    { id := db.nextBookId, title := book.title, status := book.status,
      author_id := user_id }
  (row, { db with books := db.books ++ [row], nextBookId := db.nextBookId + 1 })

/-- `get_books_by_user` (`core/crud/book.py` lines 25–44):
`query(Book).filter(Book.author_id == user_id).offset(skip).limit(limit).all()`.
With no ORDER BY the storage returns rows in primary-key (= insertion)
order. -/
def get_books_by_user (db : DB) (user_id : Nat) (skip : Nat := 0) (limit : Nat := 10) :
    List BookRow :=
  ((db.books.filter (fun b => b.author_id == user_id)).drop skip).take limit

/-- `get_book` (`core/crud/book.py` lines 47–59):
`query(Book).filter(Book.id == book_id, Book.author_id == user_id).first()`. -/
def get_book (db : DB) (book_id : Nat) (user_id : Nat) : Option BookRow :=
  db.books.find? (ownedPred book_id user_id)

/-- `delete_book` (`core/crud/book.py` lines 62–80): fetches with the
same ownership filter; if found, deletes that row and returns the
pre-deletion snapshot, else returns `None` leaving the store unchanged. -/
def delete_book (db : DB) (book_id : Nat) (user_id : Nat) : Option BookRow × DB :=
  match db.books.find? (ownedPred book_id user_id) with
  | some b => (some b, { db with books := db.books.eraseP (ownedPred book_id user_id) })
  | none => (none, db)

/-- `update_book_status` (`core/crud/book.py` lines 83–100): mutates the
fetched ORM row — `if book_update.title:` (Python truthiness: skipped
when the title is `None` or the empty string) sets the title, then the
status is always overwritten — and commits.  The store update replaces
the row with the mutated book's primary key. -/
def update_book_status (db : DB) (book : BookRow) (book_update : BookUpdate) :
    BookRow × DB :=
  let title' :=
    match book_update.title with
    | some t => if t = "" then book.title else t
    | none => book.title
  let newBook : BookRow := { book with title := title', status := book_update.status }
  (newBook,
    { db with books := db.books.map (fun b => if b.id == book.id then newBook else b) })

end Crud

/-! ## Routes (`core/routes/users.py`, `core/routes/books.py`) -/

/-- The 401 raised by the identity resolver (`core/routes/users.py`
lines 72–76): status 401, detail "Could not validate credentials",
header `WWW-Authenticate: Bearer`. -/
def credentials_exception : HTTPException :=
  { status_code := 401, detail := "Could not validate credentials",
    headers := [("WWW-Authenticate", "Bearer")] }

/-- The 404 raised by the book routes when the ownership-scoped lookup
returns nothing (`core/routes/books.py`). -/
def bookNotFound : HTTPException :=
  { status_code := 404, detail := "Book not found" }

/-- The 400 raised at registration when the email is already registered
(`core/routes/users.py` line 143). -/
def emailRegistered : HTTPException :=
  { status_code := 400, detail := "Email already registered" }

/-- What registration can fail with: the handled 400 Conflict, or an
unhandled storage constraint violation propagating as a fatal error. -/
inductive RegistrationError where
  | http (e : HTTPException)
  | storage (e : StorageError)
deriving DecidableEq, Repr

namespace Routes

/-- `get_current_user` (`core/routes/users.py` lines 59–94): decodes the
token (`JWTError` → 401), reads the `sub` claim (`None` → 401), looks
the username up in the store (`None` → 401), else returns that user. -/
def get_current_user (secret : String) (token : Token) (db : DB) :
    Except HTTPException UserRow :=
  match jwtDecode secret token with
  | .error _ => .error credentials_exception
  | .ok payload =>
    match payload.lookup "sub" with
    | none => .error credentials_exception
    | some username =>
      match Crud.get_user_by_username db username with
      | none => .error credentials_exception
      | some user => .ok user

/-- `create_user` route (`core/routes/users.py` lines 123–144): hashes
the password first, then rejects with 400 if the email is already
registered, else inserts; the response is serialized through the `User`
response schema (no password field).  Returns the response together
with the resulting store. -/
def create_user (db : DB) (user : UserCreate) (salt : Nat) :
    Except RegistrationError UserPublic × DB :=
  let hashed_password := get_password_hash user.password salt
  match Crud.get_user_by_email db user.email with
  | some _ => (.error (.http emailRegistered), db)
  | none =>
    match Crud.create_user db user hashed_password with
    | .error e => (.error (.storage e), db)
    | .ok (row, db') => (.ok row.toPublic, db')

/-- `create_book` route (`core/routes/books.py` lines 13–27):
`crud.create_book(db, book, user_id=current_user.id)`. -/
def create_book (db : DB) (book : BookCreate) (current_user : UserRow) :
    BookRow × DB :=
  Crud.create_book db book current_user.id

/-- `read_books` route (`core/routes/books.py` lines 30–46). -/
def read_books (db : DB) (current_user : UserRow) (skip : Nat := 0)
    (limit : Nat := 10) : List BookRow :=
  Crud.get_books_by_user db current_user.id skip limit

/-- `read_book` route (`core/routes/books.py` lines 49–65): 404 when the
ownership-scoped lookup returns `None`. -/
def read_book (db : DB) (book_id : Nat) (current_user : UserRow) :
    Except HTTPException BookRow :=
  match Crud.get_book db book_id current_user.id with
  | none => .error bookNotFound
  | some book => .ok book

/-- `delete_book` route (`core/routes/books.py` lines 68–84): 404 when
the ownership-scoped delete found nothing. -/
def delete_book (db : DB) (book_id : Nat) (current_user : UserRow) :
    Except HTTPException BookRow × DB :=
  match Crud.delete_book db book_id current_user.id with
  | (none, db') => (.error bookNotFound, db')
  | (some book, db') => (.ok book, db')

/-- `update_book_status` route (`core/routes/books.py` lines 87–107):
fetches with the ownership filter (404 on `None`), then applies the
update. -/
def update_book_status (db : DB) (book_id : Nat) (book_update : BookUpdate)
    (current_user : UserRow) : Except HTTPException BookRow × DB :=
  match Crud.get_book db book_id current_user.id with
  | none => (.error bookNotFound, db)
  | some book =>
    let r := Crud.update_book_status db book book_update
    (.ok r.1, r.2)

end Routes

/-- The storage UNIQUE constraint on usernames (spec §6 persisted
schema): no two rows of the `users` table share a username. -/
def usernamesUnique (db : DB) : Prop :=
  db.users.Pairwise (fun a b => a.username ≠ b.username)

/-- The primary-key constraint on the `books` table: no two rows share
an id. -/
def bookIdsUnique (db : DB) : Prop :=
  db.books.Pairwise (fun a b => a.id ≠ b.id)

/-! ## Sample data for concrete witnesses -/

/-- Sample user, id 1. -/
def userAlice : UserRow :=
  { id := 1, username := "alice", email := "a@x.com", hashed_password := "h1" }

/-- Sample user, id 2. -/
def userBob : UserRow :=
  { id := 2, username := "bob", email := "b@x.com", hashed_password := "h2" }

/-- Sample store: Alice and Bob registered, one book owned by Alice. -/
def sampleDb : DB :=
  { users := [userAlice, userBob],
    books := [{ id := 1, title := "Dune", status := .to_read, author_id := 1 }],
    nextUserId := 3, nextBookId := 2 }

/-! ## Theorems -/

/-- When no book row matches both the id and the owner, the
ownership-scoped lookup comes back empty. -/
theorem find_owned_eq_none (db : DB) (bid uid : Nat)
    (h : ∀ b ∈ db.books, b.id = bid → b.author_id ≠ uid) :
    db.books.find? (Crud.ownedPred bid uid) = none := by
  rw [List.find?_eq_none]
  intro b hb hpred
  simp only [Crud.ownedPred, Bool.and_eq_true, beq_iff_eq] at hpred
  exact h b hb hpred.1 hpred.2

/-- C1: a book of another owner is invisible: when every book row with
the requested id belongs to someone other than the acting user (which
covers both "no such book" and "book owned by a different user"),
`get_book`/`delete_book` return `None` leaving the store unchanged, and
the GET/PUT/DELETE `/books/{id}` handlers all fail with the same 404
`bookNotFound` (not a 403) — exactly the response of a nonexistent
book. -/
theorem ownership_isolation (db : DB) (bid : Nat) (u : UserRow) (bu : BookUpdate)
    (h : ∀ b ∈ db.books, b.id = bid → b.author_id ≠ u.id) :
    Crud.get_book db bid u.id = none ∧
    Crud.delete_book db bid u.id = (none, db) ∧
    Routes.read_book db bid u = .error bookNotFound ∧
    Routes.delete_book db bid u = (.error bookNotFound, db) ∧
    Routes.update_book_status db bid bu u = (.error bookNotFound, db) ∧
    bookNotFound.status_code = 404 := by
  have hnone := find_owned_eq_none db bid u.id h
  refine ⟨?_, ?_, ?_, ?_, ?_, rfl⟩ <;>
    simp [Crud.get_book, Crud.delete_book, Routes.read_book, Routes.delete_book,
      Routes.update_book_status, hnone]

/-- Witness for C1: Bob (id 2) cannot see, update or delete Alice's book
(id 1, owned by user 1) in the sample store. -/
theorem ownership_isolation_witness :
    Crud.get_book sampleDb 1 userBob.id = none ∧
    Crud.delete_book sampleDb 1 userBob.id = (none, sampleDb) ∧
    Routes.read_book sampleDb 1 userBob = .error bookNotFound ∧
    Routes.delete_book sampleDb 1 userBob = (.error bookNotFound, sampleDb) ∧
    Routes.update_book_status sampleDb 1 { title := none, status := .read } userBob =
      (.error bookNotFound, sampleDb) ∧
    bookNotFound.status_code = 404 :=
  ownership_isolation sampleDb 1 userBob { title := none, status := .read }
    (by decide)

/-- In a table with pairwise-distinct ids, two member rows with the same
id are the same row. -/
theorem mem_eq_of_id_eq {l : List BookRow}
    (hp : l.Pairwise (fun a b => a.id ≠ b.id)) {x y : BookRow}
    (hx : x ∈ l) (hy : y ∈ l) (h : x.id = y.id) : x = y := by
  induction l with
  | nil => cases hx
  | cons a t ih =>
    rcases List.pairwise_cons.mp hp with ⟨ha, ht⟩
    cases hx with
    | head =>
      cases hy with
      | head => rfl
      | tail _ hy' => exact absurd h (ha y hy')
    | tail _ hx' =>
      cases hy with
      | head => exact absurd h.symm (ha x hx')
      | tail _ hy' => exact ih ht hx' hy'

/-- C2: a created book's `author_id` is the authenticated user's id and
its id is system-assigned (the request body `BookCreate` has no
`author_id` field at all), and `update_book_status` never changes `id`
or `author_id`: the updated row keeps the book's `id` and `author_id`,
and across the whole table the `(id, author_id)` columns are unchanged
(only `title` and `status` are mutated). -/
theorem author_id_integrity (db : DB) (bc : BookCreate) (u : UserRow)
    (b : BookRow) (bu : BookUpdate) (hids : bookIdsUnique db)
    (hb : b ∈ db.books) :
    (Routes.create_book db bc u).1.author_id = u.id ∧
    (Routes.create_book db bc u).1.id = db.nextBookId ∧
    (Crud.update_book_status db b bu).1.id = b.id ∧
    (Crud.update_book_status db b bu).1.author_id = b.author_id ∧
    (Crud.update_book_status db b bu).2.books.map (fun r => (r.id, r.author_id)) =
      db.books.map (fun r => (r.id, r.author_id)) := by
  refine ⟨rfl, rfl, rfl, rfl, ?_⟩
  simp only [Crud.update_book_status, List.map_map]
  apply List.map_congr_left
  intro r hr
  by_cases hid : r.id = b.id
  · have hrb : r = b := mem_eq_of_id_eq hids hr hb hid
    subst hrb
    simp
  · simp [Function.comp, hid]

/-- Witness for C2: creating a book as Bob stamps his id; updating
Alice's book in the sample store preserves the id and author columns. -/
theorem author_id_integrity_witness :
    (Routes.create_book sampleDb { title := "Emma", status := .read } userBob).1.author_id
        = userBob.id ∧
    (Routes.create_book sampleDb { title := "Emma", status := .read } userBob).1.id
        = sampleDb.nextBookId ∧
    (Crud.update_book_status sampleDb
        { id := 1, title := "Dune", status := .to_read, author_id := 1 }
        { title := some "Dune II", status := .read }).1.id = 1 ∧
    (Crud.update_book_status sampleDb
        { id := 1, title := "Dune", status := .to_read, author_id := 1 }
        { title := some "Dune II", status := .read }).1.author_id = 1 ∧
    (Crud.update_book_status sampleDb
        { id := 1, title := "Dune", status := .to_read, author_id := 1 }
        { title := some "Dune II", status := .read }).2.books.map
          (fun r => (r.id, r.author_id)) =
      sampleDb.books.map (fun r => (r.id, r.author_id)) :=
  author_id_integrity sampleDb { title := "Emma", status := .read } userBob
    { id := 1, title := "Dune", status := .to_read, author_id := 1 }
    { title := some "Dune II", status := .read }
    (by simp [bookIdsUnique, sampleDb]) (by simp [sampleDb])

/-- C6: `update_book_status` always overwrites the status with the
supplied value; the title is overwritten only when a non-empty new
title is supplied — on `None` or the empty string the title is left
unchanged (Python truthiness of `if book_update.title:`). -/
theorem update_status_semantics (db : DB) (b : BookRow) (bu : BookUpdate) :
    (Crud.update_book_status db b bu).1.status = bu.status ∧
    (∀ t, bu.title = some t → t ≠ "" →
      (Crud.update_book_status db b bu).1.title = t) ∧
    (bu.title = some "" → (Crud.update_book_status db b bu).1.title = b.title) ∧
    (bu.title = none → (Crud.update_book_status db b bu).1.title = b.title) := by
  refine ⟨rfl, ?_, ?_, ?_⟩
  · intro t ht hne
    simp [Crud.update_book_status, ht, hne]
  · intro ht
    simp [Crud.update_book_status, ht]
  · intro ht
    simp [Crud.update_book_status, ht]

/-- Witness for C6: on a concrete book, a non-empty new title is
written, an empty or absent one is ignored, and the status is always
overwritten. -/
theorem update_status_semantics_witness :
    (Crud.update_book_status sampleDb
      { id := 1, title := "Dune", status := .to_read, author_id := 1 }
      { title := some "Dune II", status := .read }).1.title = "Dune II" ∧
    (Crud.update_book_status sampleDb
      { id := 1, title := "Dune", status := .to_read, author_id := 1 }
      { title := some "", status := .read }).1.title = "Dune" ∧
    (Crud.update_book_status sampleDb
      { id := 1, title := "Dune", status := .to_read, author_id := 1 }
      { title := none, status := .read }).1.title = "Dune" ∧
    (Crud.update_book_status sampleDb
      { id := 1, title := "Dune", status := .to_read, author_id := 1 }
      { title := some "", status := .read }).1.status = .read :=
  ⟨(update_status_semantics sampleDb _ _).2.1 "Dune II" rfl (by decide),
   (update_status_semantics sampleDb _ _).2.2.1 rfl,
   (update_status_semantics sampleDb _ _).2.2.2 rfl,
   (update_status_semantics sampleDb _ _).1⟩

/-- C9: `get_books_by_user` returns the acting user's books in
insertion order with offset and limit applied: the result is a sublist
of the stored table (so insertion order is preserved), every returned
row belongs to the user, and — starting from a store where the user
owns no books — after creating three books, listing with skip 1 and
limit 1 returns exactly the second-created book. -/
theorem list_by_owner_skip_limit (db : DB) (uid skip limit : Nat)
    (b1 b2 b3 : BookCreate)
    (h : db.books.filter (fun b => b.author_id == uid) = []) :
    (Crud.get_books_by_user db uid skip limit).Sublist db.books ∧
    (∀ r ∈ Crud.get_books_by_user db uid skip limit, r.author_id = uid) ∧
    Crud.get_books_by_user
        (Crud.create_book
          (Crud.create_book (Crud.create_book db b1 uid).2 b2 uid).2 b3 uid).2
        uid 1 1 =
      [(Crud.create_book (Crud.create_book db b1 uid).2 b2 uid).1] := by
  refine ⟨?_, ?_, ?_⟩
  · exact (List.take_sublist _ _).trans
      ((List.drop_sublist _ _).trans (List.filter_sublist _))
  · intro r hr
    have hmem : r ∈ db.books.filter (fun b => b.author_id == uid) :=
      List.drop_subset _ _ (List.take_subset _ _ hr)
    simpa using List.of_mem_filter hmem
  · simp [Crud.create_book, Crud.get_books_by_user, List.filter_append, h]

/-- Witness for C9: in an empty store, user 7 creates three books;
listing with skip 1 and limit 1 returns exactly the second one. -/
theorem list_by_owner_skip_limit_witness :
    (Crud.get_books_by_user (DB.mk [] [] 1 1) 7 0 10).Sublist (DB.mk [] [] 1 1).books ∧
    (∀ r ∈ Crud.get_books_by_user (DB.mk [] [] 1 1) 7 0 10, r.author_id = 7) ∧
    Crud.get_books_by_user
        (Crud.create_book
          (Crud.create_book
            (Crud.create_book (DB.mk [] [] 1 1)
              { title := "A", status := .read } 7).2
            { title := "B", status := .to_read } 7).2
          { title := "C", status := .read } 7).2
        7 1 1 =
      [(Crud.create_book
          (Crud.create_book (DB.mk [] [] 1 1) { title := "A", status := .read } 7).2
          { title := "B", status := .to_read } 7).1] :=
  list_by_owner_skip_limit (DB.mk [] [] 1 1) 7 0 10
    { title := "A", status := .read } { title := "B", status := .to_read }
    { title := "C", status := .read } (by decide)

/-- Scanning a digit run followed by the `$` separator keeps exactly the
digit run. -/
theorem takeWhile_salt (n : Nat) (l : List Char) :
    (List.replicate n '1' ++ '$' :: l).takeWhile (fun c => c != '$') =
      List.replicate n '1' := by
  induction n with
  | zero => simp [List.takeWhile]
  | succ k ih => simp [List.replicate_succ, List.takeWhile, ih]

/-- Scanning past a digit run stops at the `$` separator. -/
theorem dropWhile_salt (n : Nat) (l : List Char) :
    (List.replicate n '1' ++ '$' :: l).dropWhile (fun c => c != '$') =
      '$' :: l := by
  induction n with
  | zero => simp [List.dropWhile]
  | succ k ih => simp [List.replicate_succ, List.dropWhile, ih]

/-- Parsing a freshly produced hash recovers its salt and digest. -/
theorem parseHash_hashChars (p : List Char) (salt : Nat) :
    parseHash (hashChars p salt) = some (saltChars salt, p) := by
  simp [parseHash, hashChars, saltChars, takeWhile_salt, dropWhile_salt,
    List.replicate_succ]

/-- Verification of a produced hash succeeds exactly for the hashed
password. -/
theorem verify_hash_eq (p p2 : String) (salt : Nat) :
    verify_password p2 (get_password_hash p salt) = (p.data == p2.data) := by
  simp only [verify_password, get_password_hash, verifyChars]
  rw [parseHash_hashChars]

/-- The hash string is strictly longer than the password, so it never
equals it. -/
theorem hash_ne_password (p : String) (salt : Nat) :
    get_password_hash p salt ≠ p := by
  intro heq
  have hd := congrArg (fun s => s.data.length) heq
  simp [get_password_hash, hashChars, saltChars] at hd
  omega

/-- C4: `verify_password` is a total boolean function (it cannot throw),
and on any structurally malformed hash string it returns `false` for
every password. -/
theorem verify_malformed_false (p h : String)
    (hm : isWellFormedHash h = false) : verify_password p h = false := by
  simp only [verify_password, verifyChars]
  cases hp : parseHash h.data with
  | none => rfl
  | some v => simp [isWellFormedHash, hp] at hm

/-- Witness for C4: `"nothash"` is not a well-formed hash string, and
verifying `"pw"` against it returns `false`. -/
theorem verify_malformed_false_witness : verify_password "pw" "nothash" = false :=
  verify_malformed_false "pw" "nothash" (by decide)

/-- C7: the hash differs from the password; the hashed password
verifies; any other password fails to verify; and two calls with
different salts yield different hash strings, both of which verify for
the original password. -/
theorem hash_verify_roundtrip (p : String) (salt : Nat) :
    get_password_hash p salt ≠ p ∧
    verify_password p (get_password_hash p salt) = true ∧
    (∀ p2, p2 ≠ p → verify_password p2 (get_password_hash p salt) = false) ∧
    get_password_hash p 0 ≠ get_password_hash p 1 ∧
    verify_password p (get_password_hash p 0) = true ∧
    verify_password p (get_password_hash p 1) = true := by
  refine ⟨hash_ne_password p salt, ?_, ?_, ?_, ?_, ?_⟩
  · simp [verify_hash_eq]
  · intro p2 hne
    rw [verify_hash_eq]
    simp only [beq_eq_false_iff_ne, ne_eq]
    intro hd
    exact hne (String.ext hd.symm)
  · intro heq
    have hd := congrArg (fun s => s.data.length) heq
    simp [get_password_hash, hashChars, saltChars] at hd
  · simp [verify_hash_eq]
  · simp [verify_hash_eq]

/-- Witness for C7: hashing `"pw123"` with salt 0 and salt 1 gives two
different strings, both verifying for `"pw123"`, and `"PW"` fails to
verify against the first. -/
theorem hash_verify_roundtrip_witness :
    get_password_hash "pw123" 0 ≠ "pw123" ∧
    verify_password "pw123" (get_password_hash "pw123" 0) = true ∧
    verify_password "PW" (get_password_hash "pw123" 0) = false ∧
    get_password_hash "pw123" 0 ≠ get_password_hash "pw123" 1 ∧
    verify_password "pw123" (get_password_hash "pw123" 1) = true :=
  ⟨(hash_verify_roundtrip "pw123" 0).1,
   (hash_verify_roundtrip "pw123" 0).2.1,
   (hash_verify_roundtrip "pw123" 0).2.2.1 "PW" (by decide),
   (hash_verify_roundtrip "pw123" 0).2.2.2.1,
   (hash_verify_roundtrip "pw123" 0).2.2.2.2.2⟩

/-- In a table with pairwise-distinct usernames, looking a member row's
username up finds exactly that row. -/
theorem find_username_of_mem {l : List UserRow} {u : UserRow} (hu : u ∈ l)
    (huniq : l.Pairwise (fun a b => a.username ≠ b.username)) :
    l.find? (fun x => x.username == u.username) = some u := by
  induction l with
  | nil => cases hu
  | cons a t ih =>
    rcases List.pairwise_cons.mp huniq with ⟨ha, ht⟩
    cases hu with
    | head => exact List.find?_cons_of_pos _ (by simp)
    | tail _ hu' =>
      rw [List.find?_cons_of_neg _ (by simp [ha u hu'])]
      exact ih hu' ht

/-- C3: a token issued with subject = U's username resolves, through
`get_current_user`, to exactly U (given the storage UNIQUE constraint
on usernames); and any token whose signature does not match the
payload's MAC under the secret — i.e. a tampered or malformed token —
is rejected with the 401 `credentials_exception`. -/
theorem token_resolves_to_issuer (secret : String) (db : DB) (u : UserRow)
    (hu : u ∈ db.users) (huniq : usernamesUnique db) :
    Routes.get_current_user secret
        (create_access_token secret [("sub", u.username)]) db = .ok u ∧
    (∀ payload sig, sig ≠ mac secret payload →
      Routes.get_current_user secret (.signed payload sig) db =
        .error credentials_exception) ∧
    (∀ raw, Routes.get_current_user secret (.malformed raw) db =
      .error credentials_exception) := by
  refine ⟨?_, ?_, fun raw => rfl⟩
  · have hfind := find_username_of_mem hu huniq
    simp [Routes.get_current_user, create_access_token, jwtDecode,
      Crud.get_user_by_username, List.lookup, hfind]
  · intro payload sig hne
    simp [Routes.get_current_user, jwtDecode, hne]

/-- Witness for C3: a token issued for Alice resolves to Alice in the
sample store, and the same payload with a corrupted signature is
rejected. -/
theorem token_resolves_to_issuer_witness :
    Routes.get_current_user "secret"
        (create_access_token "secret" [("sub", userAlice.username)]) sampleDb =
      .ok userAlice ∧
    Routes.get_current_user "secret"
        (.signed [("sub", userAlice.username)]
          (mac "secret" [("sub", userAlice.username)] + 1)) sampleDb =
      .error credentials_exception :=
  ⟨(token_resolves_to_issuer "secret" sampleDb userAlice (by decide)
      (by simp [usernamesUnique, sampleDb, userAlice, userBob])).1,
   (token_resolves_to_issuer "secret" sampleDb userAlice (by decide)
      (by simp [usernamesUnique, sampleDb, userAlice, userBob])).2.1
     [("sub", userAlice.username)] (mac "secret" [("sub", userAlice.username)] + 1)
     (by omega)⟩

/-- C8: `get_current_user` fails exactly when no user can be resolved —
the token fails signature validation or is malformed, the `sub` claim
is absent, or no stored user has that username; every failure is the
single 401 `credentials_exception` carrying the
`WWW-Authenticate: Bearer` header; and on a valid token whose subject
exists it returns that user. -/
theorem resolver_error_characterization (secret : String) (tok : Token) (db : DB) :
    (Routes.get_current_user secret tok db = .error credentials_exception ↔
      ¬∃ payload username user, jwtDecode secret tok = .ok payload ∧
        payload.lookup "sub" = some username ∧
        Crud.get_user_by_username db username = some user) ∧
    (∀ e, Routes.get_current_user secret tok db = .error e →
      e = credentials_exception) ∧
    (∀ payload username user, jwtDecode secret tok = .ok payload →
      payload.lookup "sub" = some username →
      Crud.get_user_by_username db username = some user →
      Routes.get_current_user secret tok db = .ok user) ∧
    credentials_exception.status_code = 401 ∧
    ("WWW-Authenticate", "Bearer") ∈ credentials_exception.headers := by
  have hhdr : ("WWW-Authenticate", "Bearer") ∈ credentials_exception.headers := by
    simp [credentials_exception]
  rcases hdec : jwtDecode secret tok with e | payload
  · have hg : Routes.get_current_user secret tok db = .error credentials_exception := by
      simp [Routes.get_current_user, hdec]
    refine ⟨by simp [hg, hdec], ?_, ?_, rfl, hhdr⟩
    · intro e' he'
      rw [hg] at he'
      exact (Except.error.inj he').symm
    · intro p un usr hok
      exact absurd hok (by simp)
  · rcases hlk : payload.lookup "sub" with _ | un
    · have hg : Routes.get_current_user secret tok db = .error credentials_exception := by
        simp [Routes.get_current_user, hdec, hlk]
      refine ⟨by simp [hg, hdec, hlk], ?_, ?_, rfl, hhdr⟩
      · intro e' he'
        rw [hg] at he'
        exact (Except.error.inj he').symm
      · intro p un usr hok hlkp
        have hp := Except.ok.inj hok
        subst hp
        rw [hlk] at hlkp
        exact absurd hlkp (by simp)
    · rcases hfind : Crud.get_user_by_username db un with _ | usr
      · have hg : Routes.get_current_user secret tok db = .error credentials_exception := by
          simp [Routes.get_current_user, hdec, hlk, hfind]
        refine ⟨by simp [hg, hdec, hlk, hfind], ?_, ?_, rfl, hhdr⟩
        · intro e' he'
          rw [hg] at he'
          exact (Except.error.inj he').symm
        · intro p un' usr hok hlkp hf
          have hp := Except.ok.inj hok
          subst hp
          rw [hlk] at hlkp
          have hun := Option.some.inj hlkp
          subst hun
          rw [hfind] at hf
          exact absurd hf (by simp)
      · have hg : Routes.get_current_user secret tok db = .ok usr := by
          simp [Routes.get_current_user, hdec, hlk, hfind]
        refine ⟨?_, ?_, ?_, rfl, hhdr⟩
        · rw [hg]
          constructor
          · intro habs
            exact absurd habs (by simp)
          · intro h
            exact absurd ⟨payload, un, usr, rfl, hlk, hfind⟩ h
        · intro e' he'
          rw [hg] at he'
          exact absurd he' (by simp)
        · intro p un' usr' hok hlkp hf
          have hp := Except.ok.inj hok
          subst hp
          rw [hlk] at hlkp
          have hun := Option.some.inj hlkp
          subst hun
          rw [hfind] at hf
          have husr := Option.some.inj hf
          subst husr
          exact hg

/-- Witness for C8: on the sample store, a valid token for Bob resolves
to Bob via the success branch of the characterization. -/
theorem resolver_error_characterization_witness :
    Routes.get_current_user "k"
        (create_access_token "k" [("sub", "bob")]) sampleDb = .ok userBob :=
  (resolver_error_characterization "k"
      (create_access_token "k" [("sub", "bob")]) sampleDb).2.2.1
    [("sub", "bob")] "bob" userBob
    (by simp [create_access_token, jwtDecode]) (by simp)
    (by simp [Crud.get_user_by_username, sampleDb, userAlice, userBob])

/-- C5: registering with an email already in the user store fails with
the 400 `emailRegistered` Conflict; registering with a novel email and
novel username succeeds, returning the `UserPublic` projection — a
record with exactly the fields id, username, email — and that
projection is independent of the stored password hash (the response
never contains the password or its hash). -/
theorem registration_contract (db : DB) (u : UserCreate) (salt : Nat) :
    (∀ r, Crud.get_user_by_email db u.email = some r →
      Routes.create_user db u salt = (.error (.http emailRegistered), db) ∧
      emailRegistered.status_code = 400) ∧
    (Crud.get_user_by_email db u.email = none →
      Crud.get_user_by_username db u.username = none →
      Routes.create_user db u salt =
        (.ok { id := db.nextUserId, username := u.username, email := u.email },
          { db with
              users := db.users ++
                [{ id := db.nextUserId, username := u.username, email := u.email,
                   hashed_password := get_password_hash u.password salt }],
              nextUserId := db.nextUserId + 1 })) ∧
    (∀ (r : UserRow) (p : String),
      ({ r with hashed_password := p } : UserRow).toPublic = r.toPublic) := by
  refine ⟨?_, ?_, fun r p => rfl⟩
  · intro r hr
    exact ⟨by simp [Routes.create_user, hr], rfl⟩
  · intro hem hun
    simp only [Crud.get_user_by_email] at hem
    simp only [Crud.get_user_by_username] at hun
    have hem' := List.find?_eq_none.mp hem
    have hun' := List.find?_eq_none.mp hun
    have hany : db.users.any
        (fun x => x.username == u.username || x.email == u.email) = false := by
      rw [List.any_eq_false]
      intro x hx
      simp only [Bool.or_eq_true, not_or]
      exact ⟨hun' x hx, hem' x hx⟩
    simp [Routes.create_user, Crud.create_user, Crud.get_user_by_email, hem,
      hany, UserRow.toPublic]

/-- Witness for C5: in the sample store, registering with Alice's email
fails with the 400 Conflict and registering Carol with a novel email
and username succeeds, returning only id, username and email. -/
theorem registration_contract_witness :
    Routes.create_user sampleDb
        { username := "alice2", email := "a@x.com", password := "pw" } 0 =
      (.error (.http emailRegistered), sampleDb) ∧
    Routes.create_user sampleDb
        { username := "carol", email := "c@x.com", password := "pw" } 0 =
      (.ok { id := sampleDb.nextUserId, username := "carol", email := "c@x.com" },
        { sampleDb with
            users := sampleDb.users ++
              [{ id := sampleDb.nextUserId, username := "carol", email := "c@x.com",
                 hashed_password := get_password_hash "pw" 0 }],
            nextUserId := sampleDb.nextUserId + 1 }) :=
  ⟨((registration_contract sampleDb
        { username := "alice2", email := "a@x.com", password := "pw" } 0).1
      userAlice (by decide)).1,
   (registration_contract sampleDb
        { username := "carol", email := "c@x.com", password := "pw" } 0).2.1
     (by decide) (by decide)⟩

/-- C10: when registration is rejected because the email is already
registered, the user store is unchanged — no row is inserted — even
though the password hash is computed before the duplicate-email check
(hashing is a pure computation with no store effect). -/
theorem registration_duplicate_email_atomic (db : DB) (u : UserCreate) (salt : Nat)
    (h : (Crud.get_user_by_email db u.email).isSome = true) :
    (Routes.create_user db u salt).2 = db ∧
    (Routes.create_user db u salt).1 = .error (.http emailRegistered) := by
  rcases hr : Crud.get_user_by_email db u.email with _ | r
  · rw [hr] at h
    simp at h
  · constructor <;> simp [Routes.create_user, hr]

/-- Witness for C10: registering a second account under Alice's email
leaves the sample store exactly as it was. -/
theorem registration_duplicate_email_atomic_witness :
    (Routes.create_user sampleDb
        { username := "eve", email := "a@x.com", password := "x" } 5).2 = sampleDb ∧
    (Routes.create_user sampleDb
        { username := "eve", email := "a@x.com", password := "x" } 5).1 =
      .error (.http emailRegistered) :=
  registration_duplicate_email_atomic sampleDb
    { username := "eve", email := "a@x.com", password := "x" } 5 (by decide)
